import Mathlib

/-!
Verification of the collaborative 3D scene server (Express + Socket.IO +
MongoDB backend: `server.js` and the socket handler file).

The socket layer is shallow-embedded as a step function `handle` on a
`ServerState` holding the Mongo `projects` collection (an association list
from project id to the `state` subdocument) and the Socket.IO room
membership map.  Each inbound socket event is one constructor of `Event`;
handling it returns the next server state together with the list of
deliveries (`Emit`: event name, recipient connections, payload) that
Socket.IO performs.

Conventions of the embedding:
- JavaScript `undefined` / missing document fields and BSON `null` are both
  `Option.none` (the mongodb driver serializes `undefined` as `null` by
  default).
- Numeric coordinates are opaque to the server (it never computes with
  them), so they are modelled as `Int`.
- `new ObjectId(str)` throws unless `str` is a 24-character hex string;
  `isValidObjectId` models that check.  A throw inside an async handler
  aborts the rest of the handler body: no later store write, no later emit.
- A MongoDB `updateOne` whose filter matches no document is a silent no-op
  (`matchedCount` 0, no upsert).  A rejected `updateOne` (store failure) is
  modelled by the `storeUp := false` parameter: the `await` rejects and the
  handler body after it never runs.
- In `modelUploaded` the source constructs `new createFromTime(projectId)`;
  `createFromTime` is an undefined identifier (only `ObjectId` is imported
  in `server.js`), so evaluating the filter throws a `ReferenceError`
  before `updateOne` is called: the handler never writes and never emits.
-/

set_option autoImplicit false

abbrev ProjectId := String
abbrev ConnId := String

/-- A 3-component vector (position / rotation / scale component). -/
structure Vec3 where
  x : Int
  y : Int
  z : Int
deriving DecidableEq, Repr

/-- The `state.object` subdocument: transform fields plus the optional
`color` key written by `updateCubeColor`. -/
structure ObjectState where
  position : Option Vec3
  rotation : Option Vec3
  scale : Option Vec3
  color : Option String
deriving DecidableEq, Repr

/-- An annotation document; `deleteAnnotation` pulls by the `id` field. -/
structure Annotation where
  id : Option String
  text : Option String
deriving DecidableEq, Repr

/-- A chat message document pushed onto `state.chat`. -/
structure ChatMessage where
  author : Option String
  text : Option String
deriving DecidableEq, Repr

/-- The `state` subdocument of a project document. -/
structure SceneState where
  object : ObjectState
  camera : Option String
  annotations : List Annotation
  chat : List ChatMessage
  model : Option String
deriving DecidableEq, Repr

/-- The server state: the Mongo `projects` collection keyed by `_id`
(string form of the ObjectId) and the Socket.IO rooms. -/
structure ServerState where
  db : List (ProjectId × SceneState)
  rooms : List (ProjectId × List ConnId)
deriving DecidableEq, Repr

/-- Hex digit check for ObjectId strings. -/
def hexChar (c : Char) : Bool :=
  (48 ≤ c.toNat && c.toNat ≤ 57) || (97 ≤ c.toNat && c.toNat ≤ 102) ||
    (65 ≤ c.toNat && c.toNat ≤ 70)

/-- `new ObjectId(s)` succeeds iff `s` is a 24-character hex string;
otherwise the constructor throws. -/
def isValidObjectId (s : String) : Bool :=
  s.length == 24 && s.toList.all hexChar

/-- `findOne {_id}` / the filter of `updateOne`: first document with the
given id (ids are unique in practice; Mongo returns the first match). -/
def lookupProject : List (ProjectId × SceneState) → ProjectId → Option SceneState
  | [], _ => none
  | (k, v) :: rest, pid => if k = pid then some v else lookupProject rest pid

/-- `updateOne {_id} mod`: applies `f` to the first matching document;
a filter that matches nothing is a silent no-op. -/
def dbUpdate : List (ProjectId × SceneState) → ProjectId → (SceneState → SceneState) →
    List (ProjectId × SceneState)
  | [], _, _ => []
  | (k, v) :: rest, pid, f =>
    if k = pid then (k, f v) :: rest else (k, v) :: dbUpdate rest pid f

/-- Room lookup in the Socket.IO adapter. -/
def lookupRoom : List (ProjectId × List ConnId) → ProjectId → Option (List ConnId)
  | [], _ => none
  | (k, v) :: rest, pid => if k = pid then some v else lookupRoom rest pid

/-- `socket.join(projectId)`: adds the connection to the room, creating the
room if absent; idempotent. -/
def joinRoom : List (ProjectId × List ConnId) → ProjectId → ConnId →
    List (ProjectId × List ConnId)
  | [], pid, c => [(pid, [c])]
  | (k, cs) :: rest, pid, c =>
    if k = pid then (k, if c ∈ cs then cs else cs ++ [c]) :: rest
    else (k, cs) :: joinRoom rest pid c

/-- The members of a project's room (empty if the room does not exist). -/
def roomMembers (s : ServerState) (pid : ProjectId) : List ConnId :=
  (lookupRoom s.rooms pid).getD []

/-- `socket.to(room)` recipient set: every room member except the sender. -/
def exceptSelf (members : List ConnId) (sender : ConnId) : List ConnId :=
  members.filter (fun c => c != sender)

/-- Payload of an outbound delivery. -/
inductive Payload where
  | objectP (projectId : ProjectId) (position rotation scale : Option Vec3)
  | cameraP (projectId : ProjectId) (camera : Option String) (socketId : Option String)
  | colorP (projectId : ProjectId) (color : Option String)
  | annotationP (projectId : ProjectId) ( annotation : Annotation)
  | annotationIdP (projectId : ProjectId) (annotationId : Option String)
  | messageP (projectId : ProjectId) (message : ChatMessage)
  | modelP (projectId : ProjectId) (fileUrl : Option String)
  | scene (state : SceneState)
deriving DecidableEq, Repr

/-- One Socket.IO delivery: the event name, the set of target connections
computed from the room at emit time, and the payload. -/
structure Emit where
  event : String
  recipients : List ConnId
  payload : Payload
deriving DecidableEq, Repr

/-- The inbound socket events, one constructor per `socket.on` handler. -/
inductive Event where
  | joinProject (projectId : ProjectId)
  | updateObject (projectId : ProjectId) (position rotation scale : Option Vec3)
  | updateCamera (projectId : ProjectId) (camera : Option String) (socketId : Option String)
  | updateCubeColor (projectId : ProjectId) (color : Option String)
  | addAnnotation (projectId : ProjectId) ( annotation : Annotation)
  | deleteAnnotation (projectId : ProjectId) (annotationId : Option String)
  | sendMessage (projectId : ProjectId) (message : ChatMessage)
  | modelUploaded (projectId : ProjectId) (fileUrl : Option String)
deriving DecidableEq, Repr

/-- The project id an event addresses. -/
def Event.pid : Event → ProjectId
  | .joinProject p => p
  | .updateObject p _ _ _ => p
  | .updateCamera p _ _ => p
  | .updateCubeColor p _ => p
  | addAnnotation p _ => p
  | deleteAnnotation p _ => p
  | .sendMessage p _ => p
  | .modelUploaded p _ => p

/-- Every event except the read-only `joinProject` is a mutation. -/
def Event.isMutation : Event → Bool
  | .joinProject _ => false
  | _ => true

/-- Discriminator for the `modelUploaded` event. -/
def Event.isModelUploaded : Event → Bool
  | .modelUploaded _ _ => true
  | _ => false

/-- The store-write phase of the `updateObject` handler:
`$set {"state.object": {position, rotation, scale}}` — a blind replace of
the whole `state.object` subdocument (no read, no version check). -/
def updateObjectWrite (pid : ProjectId) (pos rot scl : Option Vec3)
    (db : List (ProjectId × SceneState)) : List (ProjectId × SceneState) :=
  dbUpdate db pid (fun st => { st with object := ⟨pos, rot, scl, none⟩ })

/-- One step of the socket layer: handler of one inbound event.
`storeUp = false` means the (first) awaited Mongo operation in the handler
rejects, so the handler body after that `await` never runs.  Returns the
next server state and the deliveries performed. -/
def handle (storeUp : Bool) (sender : ConnId) (s : ServerState) :
    Event → ServerState × List Emit
  | .joinProject pid =>
    -- socket.join(projectId) happens first, before any store access
    let s' : ServerState := { s with rooms := joinRoom s.rooms pid sender }
    if isValidObjectId pid && storeUp then
      match lookupProject s.db pid with
      | some st => (s', [⟨"loadProject", [sender], .scene st⟩])
      | none => (s', [])
    else
      -- ObjectId constructor threw, or findOne rejected: no emit
      (s', [])
  | .updateObject pid pos rot scl =>
    if isValidObjectId pid && storeUp then
      ({ s with db := updateObjectWrite pid pos rot scl s.db },
        [⟨"objectUpdated", exceptSelf (roomMembers s pid) sender,
          .objectP pid pos rot scl⟩])
    else (s, [])
  | .updateCamera pid cam sockId =>
    if isValidObjectId pid && storeUp then
      let db' := dbUpdate s.db pid (fun st => { st with camera := cam })
      ({ s with db := db' },
        [⟨"cameraUpdated", exceptSelf (roomMembers s pid) sender,
          .cameraP pid cam sockId⟩])
    else (s, [])
  | .updateCubeColor pid col =>
    if isValidObjectId pid && storeUp then
      let db' := dbUpdate s.db pid (fun st => { st with object := { st.object with color := col } })
      ({ s with db := db' },
        [⟨"cubeColorUpdated", roomMembers s pid, .colorP pid col⟩])
    else (s, [])
  | Event.addAnnotation pid a =>
    if isValidObjectId pid && storeUp then
      let db' := dbUpdate s.db pid (fun st => { st with annotations := st.annotations ++ [a] })
      ({ s with db := db' },
        [⟨"annotationAdded", roomMembers s pid, .annotationP pid a⟩])
    else (s, [])
  | Event.deleteAnnotation pid annId =>
    if isValidObjectId pid && storeUp then
      let db' := dbUpdate s.db pid (fun st => { st with annotations := st.annotations.filter (fun a => a.id != annId) })
      ({ s with db := db' },
        [⟨"annotationDeleted", roomMembers s pid, .annotationIdP pid annId⟩])
    else (s, [])
  | .sendMessage pid msg =>
    if isValidObjectId pid && storeUp then
      let db' := dbUpdate s.db pid (fun st => { st with chat := st.chat ++ [msg] })
      ({ s with db := db' },
        [⟨"receiveMessage", roomMembers s pid, .messageP pid msg⟩])
    else (s, [])
  | .modelUploaded _ _ =>
    -- `new createFromTime(projectId)`: ReferenceError before the write
    (s, [])

/-- The annotations list persisted for a project (empty if absent). -/
def annotationsAt (s : ServerState) (pid : ProjectId) : List Annotation :=
  match lookupProject s.db pid with
  | some st => st.annotations
  | none => []

-- Concrete example states used by witnesses and counterexamples

/-- A scene with the default-shaped object and nothing else. -/
def exScene : SceneState :=
  { object := { position := some ⟨0, 0, 0⟩, rotation := some ⟨0, 0, 0⟩,
                scale := some ⟨1, 1, 1⟩, color := none },
    camera := none, annotations := [], chat := [], model := none }

/-- A project with a non-default object, a stored color, one annotation,
and a two-member room. -/
def exC1 : ServerState :=
  { db := [("aaaaaaaaaaaaaaaaaaaaaaaa",
      { object := { position := some ⟨5, 5, 5⟩, rotation := some ⟨1, 0, 0⟩,
                    scale := some ⟨2, 2, 2⟩, color := some "#ff0000" },
        camera := none,
        annotations := [{ id := some "a9", text := some "note" }],
        chat := [], model := none })],
    rooms := [("aaaaaaaaaaaaaaaaaaaaaaaa", ["A", "B"])] }

/-- One project, three connections in its room. -/
def exC2 : ServerState :=
  { db := [("eeeeeeeeeeeeeeeeeeeeeeee", exScene)],
    rooms := [("eeeeeeeeeeeeeeeeeeeeeeee", ["A", "B", "C"])] }

/-- An empty collection, but a room (for a project id that resolves to
nothing) already has two members. -/
def exC3 : ServerState :=
  { db := [], rooms := [("ffffffffffffffffffffffff", ["A", "B"])] }

/-- A project whose object carries a color, with a two-member room. -/
def exC4 : ServerState :=
  { db := [("abcdefabcdefabcdefabcdef",
      { object := { position := some ⟨7, 8, 9⟩, rotation := some ⟨0, 0, 0⟩,
                    scale := some ⟨1, 1, 1⟩, color := some "#123456" },
        camera := none, annotations := [], chat := [], model := none })],
    rooms := [("abcdefabcdefabcdefabcdef", ["A", "B"])] }

/-- A project that already holds one annotation with id `a0`. -/
def exC6 : ServerState :=
  { db := [("dddddddddddddddddddddddd",
      { object := exScene.object, camera := none,
        annotations := [{ id := some "a0", text := none }],
        chat := [], model := none })],
    rooms := [("dddddddddddddddddddddddd", ["A"])] }

/-- One known project, empty rooms. -/
def exC7 : ServerState :=
  { db := [("bbbbbbbbbbbbbbbbbbbbbbbb", exScene)], rooms := [] }

-- Basic lemmas about the store

theorem lookupProject_dbUpdate_self (db : List (ProjectId × SceneState))
    (pid : ProjectId) (f : SceneState → SceneState) :
    lookupProject (dbUpdate db pid f) pid = (lookupProject db pid).map f := by
  induction db with
  | nil => simp [lookupProject, dbUpdate]
  | cons kv rest ih =>
    by_cases h : kv.1 = pid
    · simp [lookupProject, dbUpdate, h]
    · simp [lookupProject, dbUpdate, h, ih]

theorem dbUpdate_of_lookup_none (db : List (ProjectId × SceneState))
    (pid : ProjectId) (h : lookupProject db pid = none)
    (f : SceneState → SceneState) : dbUpdate db pid f = db := by
  induction db with
  | nil => simp [dbUpdate]
  | cons kv rest ih =>
    by_cases hk : kv.1 = pid
    · simp [lookupProject, hk] at h
    · simp [lookupProject, hk] at h
      simp [dbUpdate, hk, ih h]

theorem dbUpdate_of_fix (db : List (ProjectId × SceneState))
    (pid : ProjectId) (f : SceneState → SceneState)
    (h : ∀ st, lookupProject db pid = some st → f st = st) :
    dbUpdate db pid f = db := by
  induction db with
  | nil => simp [dbUpdate]
  | cons kv rest ih =>
    obtain ⟨k, v⟩ := kv
    by_cases hk : k = pid
    · have := h v (by simp [lookupProject, hk])
      simp [dbUpdate, hk, this]
    · simp only [lookupProject, hk, if_false] at h
      simp [dbUpdate, hk, ih h]

theorem withDb_self (s : ServerState) : ServerState.mk s.db s.rooms = s := rfl

theorem self_mem_joinRoom (rooms : List (ProjectId × List ConnId))
    (pid : ProjectId) (c : ConnId) :
    c ∈ (lookupRoom (joinRoom rooms pid c) pid).getD [] := by
  induction rooms with
  | nil => simp [joinRoom, lookupRoom]
  | cons kv rest ih =>
    obtain ⟨k, cs⟩ := kv
    by_cases hk : k = pid
    · subst hk
      by_cases hc : c ∈ cs <;> simp [joinRoom, lookupRoom, hc]
    · simp [joinRoom, lookupRoom, hk, ih]

theorem handle_join_fst (storeUp : Bool) (sender : ConnId) (s : ServerState)
    (pid : ProjectId) :
    (handle storeUp sender s (.joinProject pid)).1 =
      { s with rooms := joinRoom s.rooms pid sender } := by
  simp only [handle]
  split
  · split <;> rfl
  · rfl

theorem mem_lookupRoom_joinRoom (rooms : List (ProjectId × List ConnId))
    (pid : ProjectId) (c : ConnId) (q : ProjectId) (x : ConnId)
    (h : x ∈ (lookupRoom rooms q).getD []) :
    x ∈ (lookupRoom (joinRoom rooms pid c) q).getD [] := by
  induction rooms with
  | nil => simp [lookupRoom] at h
  | cons kv rest ih =>
    obtain ⟨k, cs⟩ := kv
    by_cases hk : k = pid
    · subst hk
      by_cases hq : k = q
      · subst hq
        simp [lookupRoom] at h
        by_cases hc : c ∈ cs <;>
          simp [joinRoom, lookupRoom, hc, h, List.mem_append]
      · simp only [lookupRoom, hq, if_false] at h
        simp [joinRoom, lookupRoom, hq, h]
    · by_cases hq : k = q
      · subst hq
        simp [lookupRoom] at h
        simp [joinRoom, lookupRoom, hk, h]
      · simp only [lookupRoom, hq, if_false] at h
        simp [joinRoom, lookupRoom, hk, hq, ih h]

theorem handle_rooms_eq (storeUp : Bool) (sender : ConnId) (s : ServerState)
    (e : Event) (h : e.isMutation = true) :
    (handle storeUp sender s e).1.rooms = s.rooms := by
  cases e with
  | joinProject q => simp [Event.isMutation] at h
  | updateObject q a b c =>
    simp only [handle]
    split <;> rfl
  | updateCamera q a b =>
    simp only [handle]
    split <;> rfl
  | updateCubeColor q a =>
    simp only [handle]
    split <;> rfl
  | addAnnotation q a =>
    simp only [handle]
    split <;> rfl
  | deleteAnnotation q a =>
    simp only [handle]
    split <;> rfl
  | sendMessage q a =>
    simp only [handle]
    split <;> rfl
  | modelUploaded q a => rfl

/-- Claim C5: if the store write fails (the awaited Mongo update rejects),
the mutation handler performs no broadcast and leaves the server state
unchanged: the `io.to(...).emit` / `socket.to(...).emit` call sits after
the `await`, so a broadcast happens only once the preceding write has
completed successfully. -/
theorem c5_failed_write_no_broadcast (sender : ConnId) (s : ServerState)
    (e : Event) (h : e.isMutation = true) :
    handle false sender s e = (s, []) := by
  cases e <;> simp_all [handle, Event.isMutation]

theorem c5_failed_write_no_broadcast_witness :
    Event.isMutation (.sendMessage "aaaaaaaaaaaaaaaaaaaaaaaa" ⟨some "u", some "hi"⟩) = true ∧
    handle false "A" exC1 (.sendMessage "aaaaaaaaaaaaaaaaaaaaaaaa" ⟨some "u", some "hi"⟩) =
      (exC1, []) :=
  ⟨rfl, c5_failed_write_no_broadcast "A" exC1
    (.sendMessage "aaaaaaaaaaaaaaaaaaaaaaaa" ⟨some "u", some "hi"⟩) rfl⟩

/-- Claim C1 (code bug): handling `modelUploaded` leaves the whole server
state untouched and emits nothing, for any prior state of the project.
The handler builds its filter as `new createFromTime(projectId)`, but
`createFromTime` is an undefined identifier (only `ObjectId` is imported),
so the handler throws a ReferenceError before the `updateOne` call: the
model reference is never set, the object is never reset to the default
transform and color, the annotations are never cleared, and no
`modelLoaded` event reaches the room — contradicting the claim at this
concrete input. -/
theorem c1_modelUploaded_throws_before_write :
    handle true "A" exC1 (.modelUploaded "aaaaaaaaaaaaaaaaaaaaaaaa" (some "m1")) =
      (exC1, []) := rfl

/-- Claim C7: `joinProject` on a project id that does not resolve (absent
from the collection, or not a parsable ObjectId) emits nothing — no
snapshot and no error event; on a project id that resolves, the full
current scene state is emitted as `loadProject` to the joining connection
only. -/
theorem c7_join_snapshot (sender : ConnId) (s : ServerState) (pid : ProjectId) :
    ((lookupProject s.db pid = none ∨ isValidObjectId pid = false) →
      (handle true sender s (.joinProject pid)).2 = []) ∧
    (∀ st, lookupProject s.db pid = some st → isValidObjectId pid = true →
      (handle true sender s (.joinProject pid)).2 =
        [⟨"loadProject", [sender], .scene st⟩]) := by
  by_cases hv : isValidObjectId pid = true
  · constructor
    · intro h
      rcases h with h | h
      · simp [handle, hv, h]
      · rw [hv] at h
        exact absurd h (by decide)
    · intro st hst _
      simp [handle, hv, hst]
  · have hv' : isValidObjectId pid = false := by
      revert hv
      cases isValidObjectId pid <;> simp
    constructor
    · intro _
      simp [handle, hv']
    · intro st _ hvt
      rw [hvt] at hv'
      exact absurd hv' (by decide)

theorem c7_join_snapshot_witness :
    (handle true "A" exC7 (.joinProject "cccccccccccccccccccccccc")).2 = [] ∧
    (handle true "A" exC7 (.joinProject "bbbbbbbbbbbbbbbbbbbbbbbb")).2 =
      [⟨"loadProject", ["A"], .scene exScene⟩] :=
  ⟨(c7_join_snapshot "A" exC7 "cccccccccccccccccccccccc").1 (Or.inl rfl),
   (c7_join_snapshot "A" exC7 "bbbbbbbbbbbbbbbbbbbbbbbb").2 exScene rfl rfl⟩

theorem handle_addAnnotation_fst (sender : ConnId) (s : ServerState)
    (pid : ProjectId) (a : Annotation) (hv : isValidObjectId pid = true) :
    (handle true sender s (Event.addAnnotation pid a)).1 =
      { s with db := dbUpdate s.db pid (fun st => { st with annotations := st.annotations ++ [a] }) } := by
  simp [handle, hv]

theorem handle_deleteAnnotation_fst (sender : ConnId) (s : ServerState)
    (pid : ProjectId) (annId : Option String) (hv : isValidObjectId pid = true) :
    (handle true sender s (Event.deleteAnnotation pid annId)).1 =
      { s with db := dbUpdate s.db pid (fun st => { st with annotations := st.annotations.filter (fun a => a.id != annId) }) } := by
  simp [handle, hv]

/-- Claim C6: when no annotation with the given id is already stored,
`addAnnotation` of an annotation carrying that id followed by
`deleteAnnotation` of the id restores the annotations list exactly; and
`deleteAnnotation` of an id that is not present leaves the server state
unchanged (the `$pull` matches nothing — a no-op, not an error). -/
theorem c6_add_then_delete (sender : ConnId) (s : ServerState) (pid : ProjectId)
    (a : Annotation) (annId : String) (ha : a.id = some annId)
    (hfresh : ∀ x ∈ annotationsAt s pid, x.id ≠ some annId) :
    annotationsAt ((handle true sender
        ((handle true sender s (Event.addAnnotation pid a)).1)
        (Event.deleteAnnotation pid (some annId))).1) pid = annotationsAt s pid ∧
    (handle true sender s (Event.deleteAnnotation pid (some annId))).1 = s := by
  have hdel : ∀ st, lookupProject s.db pid = some st →
      st.annotations.filter (fun x => x.id != some annId) = st.annotations := by
    intro st hst
    apply List.filter_eq_self.mpr
    intro x hx
    have hne := hfresh x (by simp [annotationsAt, hst, hx])
    simpa [bne_iff_ne] using hne
  by_cases hv : isValidObjectId pid = true
  · constructor
    · rw [handle_addAnnotation_fst sender s pid a hv]
      rw [handle_deleteAnnotation_fst sender _ pid (some annId) hv]
      cases hlook : lookupProject s.db pid with
      | none =>
        simp [annotationsAt, lookupProject_dbUpdate_self, hlook]
      | some st =>
        have hfe := hdel st hlook
        simp [annotationsAt, lookupProject_dbUpdate_self, hlook,
          List.filter_append, hfe, ha]
    · rw [handle_deleteAnnotation_fst sender s pid (some annId) hv]
      have hfix : dbUpdate s.db pid
          (fun st => { st with annotations :=
            st.annotations.filter (fun x => x.id != some annId) }) = s.db := by
        apply dbUpdate_of_fix
        intro st hst
        simp [hdel st hst]
      rw [hfix]
  · have hv' : isValidObjectId pid = false := by
      revert hv
      cases isValidObjectId pid <;> simp
    constructor
    · simp [handle, hv']
    · simp [handle, hv']

theorem c6_add_then_delete_witness :
    annotationsAt ((handle true "A"
        ((handle true "A" exC6
          (Event.addAnnotation "dddddddddddddddddddddddd" ⟨some "a1", some "note"⟩)).1)
        (Event.deleteAnnotation "dddddddddddddddddddddddd" (some "a1"))).1)
      "dddddddddddddddddddddddd" = annotationsAt exC6 "dddddddddddddddddddddddd" ∧
    (handle true "A" exC6
        (Event.deleteAnnotation "dddddddddddddddddddddddd" (some "a1"))).1 = exC6 :=
  c6_add_then_delete "A" exC6 "dddddddddddddddddddddddd"
    ⟨some "a1", some "note"⟩ "a1" rfl (by decide)

/-- Claim C8: two `updateObject` store writes to the same project, applied
in store-completion order (first the write carrying T1, then the write
carrying T2), leave the persisted object equal to T2: the write is a blind
`$set` of the whole `state.object` subdocument, with no merge and no
version check, so the last completed write wins regardless of event
arrival order. -/
theorem c8_last_writer_wins (db : List (ProjectId × SceneState))
    (pid : ProjectId) (p1 r1 q1 p2 r2 q2 : Option Vec3) (st : SceneState)
    (h : lookupProject db pid = some st) :
    ∃ st2, lookupProject
        (updateObjectWrite pid p2 r2 q2 (updateObjectWrite pid p1 r1 q1 db)) pid =
        some st2 ∧
      st2.object = ⟨p2, r2, q2, none⟩ := by
  have hl : lookupProject
      (updateObjectWrite pid p2 r2 q2 (updateObjectWrite pid p1 r1 q1 db)) pid =
      some { { st with object := ⟨p1, r1, q1, none⟩ } with
        object := ⟨p2, r2, q2, none⟩ } := by
    simp [updateObjectWrite, lookupProject_dbUpdate_self, h]
  exact ⟨_, hl, rfl⟩

theorem c8_last_writer_wins_witness :
    ∃ st2, lookupProject
        (updateObjectWrite "eeeeeeeeeeeeeeeeeeeeeeee" (some ⟨9, 9, 9⟩) (some ⟨0, 0, 0⟩)
          (some ⟨1, 1, 1⟩)
          (updateObjectWrite "eeeeeeeeeeeeeeeeeeeeeeee" (some ⟨4, 4, 4⟩) (some ⟨0, 0, 0⟩)
            (some ⟨2, 2, 2⟩) exC2.db)) "eeeeeeeeeeeeeeeeeeeeeeee" = some st2 ∧
      st2.object = ⟨some ⟨9, 9, 9⟩, some ⟨0, 0, 0⟩, some ⟨1, 1, 1⟩, none⟩ :=
  c8_last_writer_wins exC2.db "eeeeeeeeeeeeeeeeeeeeeeee"
    (some ⟨4, 4, 4⟩) (some ⟨0, 0, 0⟩) (some ⟨2, 2, 2⟩)
    (some ⟨9, 9, 9⟩) (some ⟨0, 0, 0⟩) (some ⟨1, 1, 1⟩) exScene rfl

/-- Claim C9: `updateObject` replaces the whole persisted `state.object`
subdocument with exactly the position/rotation/scale of the payload, so a
color previously written by `updateCubeColor` is gone afterwards: after
`updateCubeColor` then `updateObject`, the stored object is the payload
transform with `color` absent. -/
theorem c9_updateObject_replaces_object (sender : ConnId) (s : ServerState)
    (pid : ProjectId) (col : Option String) (pos rot scl : Option Vec3)
    (hv : isValidObjectId pid = true) :
    ∀ st, lookupProject ((handle true sender
        ((handle true sender s (.updateCubeColor pid col)).1)
        (.updateObject pid pos rot scl)).1).db pid = some st →
      st.object = { position := pos, rotation := rot, scale := scl, color := none } := by
  intro st hst
  simp only [handle, hv, Bool.true_and, if_true, updateObjectWrite] at hst
  rw [lookupProject_dbUpdate_self, lookupProject_dbUpdate_self] at hst
  cases hlook : lookupProject s.db pid with
  | none => rw [hlook] at hst; simp at hst
  | some st0 =>
    rw [hlook] at hst
    simp only [Option.map_some'] at hst
    cases hst.symm
    rfl

theorem c9_updateObject_replaces_object_witness :
    isValidObjectId "abcdefabcdefabcdefabcdef" = true ∧
    ∀ st, lookupProject ((handle true "A"
        ((handle true "A" exC4 (.updateCubeColor "abcdefabcdefabcdefabcdef" (some "#00ff00"))).1)
        (.updateObject "abcdefabcdefabcdefabcdef" (some ⟨3, 3, 3⟩) none none)).1).db "abcdefabcdefabcdefabcdef" = some st →
      st.object = { position := some ⟨3, 3, 3⟩, rotation := none, scale := none, color := none } :=
  ⟨rfl, c9_updateObject_replaces_object "A" exC4 "abcdefabcdefabcdefabcdef"
    (some "#00ff00") (some ⟨3, 3, 3⟩) none none rfl⟩

/-- Claim C2: for every event an emitted broadcast's recipient set follows
the per-event-type policy: `objectUpdated` and `cameraUpdated` go to every
room member except the sending connection and never to the sender
(`socket.to(...)`), while `cubeColorUpdated` (the spec's `colorUpdated`),
`annotationAdded`, `annotationDeleted`, `receiveMessage` and `modelLoaded`
go to every room member including the sender (`io.to(...)`). -/
theorem c2_fanout_policy (storeUp : Bool) (sender : ConnId) (s : ServerState)
    (e : Event) (em : Emit) (hm : em ∈ (handle storeUp sender s e).2) (c : ConnId) :
    ((em.event = "objectUpdated" ∨ em.event = "cameraUpdated") →
      (c ∈ em.recipients ↔ (c ∈ roomMembers s e.pid ∧ c ≠ sender))) ∧
    ((em.event = "cubeColorUpdated" ∨ em.event = "annotationAdded" ∨
        em.event = "annotationDeleted" ∨ em.event = "receiveMessage" ∨
        em.event = "modelLoaded") →
      (c ∈ em.recipients ↔ c ∈ roomMembers s e.pid)) := by
  cases e with
  | joinProject pid =>
    simp only [handle] at hm
    split at hm
    · split at hm
      · simp at hm
        subst hm
        constructor
        · intro hcon
          rcases hcon with h | h <;> simp at h
        · intro hcon
          rcases hcon with h | h | h | h | h <;> simp at h
      · simp at hm
    · simp at hm
  | updateObject pid pos rot scl =>
    simp only [handle] at hm
    split at hm
    · simp at hm
      subst hm
      constructor
      · intro _
        simp [exceptSelf, Event.pid, List.mem_filter, bne_iff_ne]
      · intro hcon
        rcases hcon with h | h | h | h | h <;> simp at h
    · simp at hm
  | updateCamera pid cam sockId =>
    simp only [handle] at hm
    split at hm
    · simp at hm
      subst hm
      constructor
      · intro _
        simp [exceptSelf, Event.pid, List.mem_filter, bne_iff_ne]
      · intro hcon
        rcases hcon with h | h | h | h | h <;> simp at h
    · simp at hm
  | updateCubeColor pid col =>
    simp only [handle] at hm
    split at hm
    · simp at hm
      subst hm
      constructor
      · intro hcon
        rcases hcon with h | h <;> simp at h
      · intro _
        simp [Event.pid]
    · simp at hm
  | addAnnotation pid a =>
    simp only [handle] at hm
    split at hm
    · simp at hm
      subst hm
      constructor
      · intro hcon
        rcases hcon with h | h <;> simp at h
      · intro _
        simp [Event.pid]
    · simp at hm
  | deleteAnnotation pid annId =>
    simp only [handle] at hm
    split at hm
    · simp at hm
      subst hm
      constructor
      · intro hcon
        rcases hcon with h | h <;> simp at h
      · intro _
        simp [Event.pid]
    · simp at hm
  | sendMessage pid msg =>
    simp only [handle] at hm
    split at hm
    · simp at hm
      subst hm
      constructor
      · intro hcon
        rcases hcon with h | h <;> simp at h
      · intro _
        simp [Event.pid]
    · simp at hm
  | modelUploaded pid url =>
    simp [handle] at hm

theorem c2_fanout_policy_witness :
    "B" ∈ (["B", "C"] : List ConnId) ↔
      ("B" ∈ roomMembers exC2
          (Event.pid (.updateObject "eeeeeeeeeeeeeeeeeeeeeeee" none none none)) ∧
        "B" ≠ "A") :=
  (c2_fanout_policy true "A" exC2 (.updateObject "eeeeeeeeeeeeeeeeeeeeeeee" none none none)
      ⟨"objectUpdated", ["B", "C"], .objectP "eeeeeeeeeeeeeeeeeeeeeeee" none none none⟩
      (by decide) "B").1 (Or.inl rfl)

/-- Claim C3 counterexample: with an empty projects collection but a room
`ffffffffffffffffffffffff` holding connections A and B (possible because
`joinProject` joins the room before checking existence), A's
`updateObject` for that unresolvable project id changes no persisted
state, yet the `objectUpdated` broadcast is still emitted and delivered to
B — refuting the claim that no broadcast is emitted to any connection. -/
theorem c3_counterexample :
    lookupProject exC3.db "ffffffffffffffffffffffff" = none ∧
    (handle true "A" exC3 (.updateObject "ffffffffffffffffffffffff"
        (some ⟨1, 2, 3⟩) (some ⟨0, 0, 0⟩) (some ⟨1, 1, 1⟩))).2 =
      [⟨"objectUpdated", ["B"], .objectP "ffffffffffffffffffffffff"
        (some ⟨1, 2, 3⟩) (some ⟨0, 0, 0⟩) (some ⟨1, 1, 1⟩)⟩] :=
  ⟨rfl, rfl⟩

/-- Claim C3 as amended: for a mutation event whose projectId parses as an
ObjectId but matches no project document, the `updateOne` is a silent
no-op, so no persisted state of any project changes (the server state is
unchanged); however the handler does not check the write's result, so —
except for `modelUploaded`, whose handler always throws first — it still
emits its single broadcast to the projectId's room.  Only an id that fails
ObjectId parsing makes the handler throw before emitting. -/
theorem c3_amended_unknown_project (sender : ConnId) (s : ServerState) (e : Event)
    (hmut : e.isMutation = true) (hval : isValidObjectId e.pid = true)
    (habs : lookupProject s.db e.pid = none) :
    (handle true sender s e).1 = s ∧
    (e.isModelUploaded = false → (handle true sender s e).2.length = 1) := by
  cases e with
  | joinProject pid => simp [Event.isMutation] at hmut
  | updateObject pid pos rot scl =>
    simp only [Event.pid] at hval habs
    constructor
    · simp [handle, hval, updateObjectWrite, dbUpdate_of_lookup_none _ _ habs,
        withDb_self]
    · intro _
      simp [handle, hval]
  | updateCamera pid cam sockId =>
    simp only [Event.pid] at hval habs
    constructor
    · simp [handle, hval, dbUpdate_of_lookup_none _ _ habs, withDb_self]
    · intro _
      simp [handle, hval]
  | updateCubeColor pid col =>
    simp only [Event.pid] at hval habs
    constructor
    · simp [handle, hval, dbUpdate_of_lookup_none _ _ habs, withDb_self]
    · intro _
      simp [handle, hval]
  | addAnnotation pid a =>
    simp only [Event.pid] at hval habs
    constructor
    · simp [handle, hval, dbUpdate_of_lookup_none _ _ habs, withDb_self]
    · intro _
      simp [handle, hval]
  | deleteAnnotation pid annId =>
    simp only [Event.pid] at hval habs
    constructor
    · simp [handle, hval, dbUpdate_of_lookup_none _ _ habs, withDb_self]
    · intro _
      simp [handle, hval]
  | sendMessage pid msg =>
    simp only [Event.pid] at hval habs
    constructor
    · simp [handle, hval, dbUpdate_of_lookup_none _ _ habs, withDb_self]
    · intro _
      simp [handle, hval]
  | modelUploaded pid url =>
    constructor
    · rfl
    · intro hfalse
      simp [Event.isModelUploaded] at hfalse

theorem c3_amended_unknown_project_witness :
    (handle true "A" exC3 (.updateObject "ffffffffffffffffffffffff"
        (some ⟨1, 2, 3⟩) none none)).1 = exC3 ∧
    (Event.isModelUploaded (.updateObject "ffffffffffffffffffffffff"
        (some ⟨1, 2, 3⟩) none none) = false →
      (handle true "A" exC3 (.updateObject "ffffffffffffffffffffffff"
        (some ⟨1, 2, 3⟩) none none)).2.length = 1) :=
  c3_amended_unknown_project "A" exC3
    (.updateObject "ffffffffffffffffffffffff" (some ⟨1, 2, 3⟩) none none)
    rfl rfl rfl

/-- Claim C4 counterexample: an `updateObject` whose payload is missing all
transform fields (position, rotation, scale all absent) is not rejected:
the store write proceeds (overwriting the stored object) and the
`objectUpdated` broadcast is still emitted — refuting the claim that a
payload missing required fields is rejected before any write with nothing
emitted. -/
theorem c4_counterexample :
    (handle true "A" exC4 (.updateObject "abcdefabcdefabcdefabcdef" none none none)).2 ≠ [] ∧
    (handle true "A" exC4 (.updateObject "abcdefabcdefabcdefabcdef" none none none)).1.db ≠ exC4.db := by
  constructor <;> decide

/-- Claim C4 as amended: the handlers perform no payload validation.  An
`updateObject` missing its transform fields still overwrites the stored
`state.object` (the absent fields persisted as null) and still broadcasts;
an `addAnnotation` whose annotation has no identifier still appends it and
still broadcasts.  The only rejection is the ObjectId parse of the
projectId. -/
theorem c4_amended_no_validation (sender : ConnId) (s : ServerState)
    (pid : ProjectId) (st : SceneState) (t : Option String)
    (hval : isValidObjectId pid = true) (hlook : lookupProject s.db pid = some st) :
    (lookupProject (handle true sender s (.updateObject pid none none none)).1.db pid =
        some { st with object := ⟨none, none, none, none⟩ } ∧
      (handle true sender s (.updateObject pid none none none)).2.length = 1) ∧
    (lookupProject (handle true sender s (Event.addAnnotation pid ⟨none, t⟩)).1.db pid =
        some { st with annotations := st.annotations ++ [⟨none, t⟩] } ∧
      (handle true sender s (Event.addAnnotation pid ⟨none, t⟩)).2.length = 1) := by
  refine ⟨⟨?_, ?_⟩, ?_, ?_⟩ <;>
    simp [handle, hval, updateObjectWrite, lookupProject_dbUpdate_self, hlook]

theorem c4_amended_no_validation_witness :
    (lookupProject (handle true "A" exC4
        (.updateObject "abcdefabcdefabcdefabcdef" none none none)).1.db
        "abcdefabcdefabcdefabcdef" =
      some { object := ⟨none, none, none, none⟩, camera := none, annotations := [],
             chat := [], model := none } ∧
      (handle true "A" exC4
        (.updateObject "abcdefabcdefabcdefabcdef" none none none)).2.length = 1) ∧
    (lookupProject (handle true "A" exC4
        (Event.addAnnotation "abcdefabcdefabcdefabcdef" ⟨none, some "floating"⟩)).1.db
        "abcdefabcdefabcdefabcdef" =
      some { object := { position := some ⟨7, 8, 9⟩, rotation := some ⟨0, 0, 0⟩,
                         scale := some ⟨1, 1, 1⟩, color := some "#123456" },
             camera := none, annotations := [⟨none, some "floating"⟩],
             chat := [], model := none } ∧
      (handle true "A" exC4
        (Event.addAnnotation "abcdefabcdefabcdefabcdef" ⟨none, some "floating"⟩)).2.length = 1) :=
  c4_amended_no_validation "A" exC4 "abcdefabcdefabcdefabcdef"
    { object := { position := some ⟨7, 8, 9⟩, rotation := some ⟨0, 0, 0⟩,
                  scale := some ⟨1, 1, 1⟩, color := some "#123456" },
      camera := none, annotations := [], chat := [], model := none }
    (some "floating") rfl rfl

/-- Claim C10: `joinProject` performs `socket.join` before the existence
check, so even for a project id that resolves to nothing the joining
connection becomes a member of that id's room; no handler ever removes a
connection from a room, so the membership persists across every later
event, and from any state in which it is a member the connection is in the
recipient set of every broadcast a mutation event addressed to that id
triggers from another connection. -/
theorem c10_join_before_existence_check (s : ServerState) (sender : ConnId)
    (pid : ProjectId) (habs : lookupProject s.db pid = none) :
    sender ∈ roomMembers (handle true sender s (.joinProject pid)).1 pid ∧
    (∀ (storeUp2 : Bool) (sender2 : ConnId) (s2 : ServerState) (e : Event),
      sender ∈ roomMembers s2 pid →
      sender ∈ roomMembers (handle storeUp2 sender2 s2 e).1 pid) ∧
    (∀ (sender2 : ConnId) (s2 : ServerState) (e : Event),
      sender ∈ roomMembers s2 pid → e.isMutation = true → e.pid = pid →
      sender2 ≠ sender →
      ∀ em ∈ (handle true sender2 s2 e).2, sender ∈ em.recipients) := by
  refine ⟨?_, ?_, ?_⟩
  · rw [handle_join_fst]
    simpa [roomMembers] using self_mem_joinRoom s.rooms pid sender
  · intro storeUp2 sender2 s2 e hmem2
    cases e with
    | joinProject q =>
      rw [handle_join_fst]
      simp only [roomMembers] at hmem2 ⊢
      exact mem_lookupRoom_joinRoom s2.rooms q sender2 pid sender hmem2
    | updateObject q a b c =>
      simpa [roomMembers, handle_rooms_eq storeUp2 sender2 s2 (.updateObject q a b c) rfl]
        using hmem2
    | updateCamera q a b =>
      simpa [roomMembers, handle_rooms_eq storeUp2 sender2 s2 (.updateCamera q a b) rfl]
        using hmem2
    | updateCubeColor q a =>
      simpa [roomMembers, handle_rooms_eq storeUp2 sender2 s2 (.updateCubeColor q a) rfl]
        using hmem2
    | addAnnotation q a =>
      simpa [roomMembers, handle_rooms_eq storeUp2 sender2 s2 (Event.addAnnotation q a) rfl]
        using hmem2
    | deleteAnnotation q a =>
      simpa [roomMembers, handle_rooms_eq storeUp2 sender2 s2 (Event.deleteAnnotation q a) rfl]
        using hmem2
    | sendMessage q a =>
      simpa [roomMembers, handle_rooms_eq storeUp2 sender2 s2 (.sendMessage q a) rfl]
        using hmem2
    | modelUploaded q a =>
      simpa [roomMembers, handle_rooms_eq storeUp2 sender2 s2 (.modelUploaded q a) rfl]
        using hmem2
  · intro sender2 s2 e hmem2 hmut hpid hne em hm
    cases e with
    | joinProject q => simp [Event.isMutation] at hmut
    | updateObject q pos rot scl =>
      simp only [Event.pid] at hpid
      subst hpid
      simp only [handle] at hm
      split at hm
      · simp at hm
        subst hm
        simp only [exceptSelf, List.mem_filter, bne_iff_ne]
        exact ⟨hmem2, hne.symm⟩
      · simp at hm
    | updateCamera q cam sockId =>
      simp only [Event.pid] at hpid
      subst hpid
      simp only [handle] at hm
      split at hm
      · simp at hm
        subst hm
        simp only [exceptSelf, List.mem_filter, bne_iff_ne]
        exact ⟨hmem2, hne.symm⟩
      · simp at hm
    | updateCubeColor q col =>
      simp only [Event.pid] at hpid
      subst hpid
      simp only [handle] at hm
      split at hm
      · simp at hm
        subst hm
        exact hmem2
      · simp at hm
    | addAnnotation q a =>
      simp only [Event.pid] at hpid
      subst hpid
      simp only [handle] at hm
      split at hm
      · simp at hm
        subst hm
        exact hmem2
      · simp at hm
    | deleteAnnotation q annId =>
      simp only [Event.pid] at hpid
      subst hpid
      simp only [handle] at hm
      split at hm
      · simp at hm
        subst hm
        exact hmem2
      · simp at hm
    | sendMessage q msg =>
      simp only [Event.pid] at hpid
      subst hpid
      simp only [handle] at hm
      split at hm
      · simp at hm
        subst hm
        exact hmem2
      · simp at hm
    | modelUploaded q url =>
      simp [handle] at hm

theorem c10_join_before_existence_check_witness :
    "A" ∈ roomMembers (handle true "A" ⟨[], []⟩
      (.joinProject "ffffffffffffffffffffffff")).1 "ffffffffffffffffffffffff" :=
  (c10_join_before_existence_check ⟨[], []⟩ "A" "ffffffffffffffffffffffff" rfl).1
